import Mathlib

/-!
# TinyList campaign delivery engine — verification development

Shallow embedding of the parts of `zhisme/tinylist` exercised by the
specification's claims:

* the SQLite schema constraints of `schema.sql` (the campaigns and
  subscribers `CHECK(status IN ...)` clauses, applied verbatim by
  `DB.Migrate`, which embeds `schema.sql`);
* the store operations of `internal/db/queries.go`
  (`UpdateCampaignStatus`, `UpdateSubscriberStatus`, `UpdateCampaignCounts`);
* the campaign worker of `internal/worker` (`ReplaceTemplateVars`,
  `SendCampaign`);
* the subscriber list pagination of the private subscriber handler;
* the public subscribe handler;
* `config.Validate`.

Timestamps are modelled as abstract `Nat` instants (`datetime('now')`
becomes an explicit `now` parameter); statuses stay strings, as in Go.
-/

namespace Tinylist

/-! ## Store rows and schema constraints -/

/-- The campaign columns touched by the delivery engine
(`campaigns` table of `schema.sql`). -/
structure CampaignRow where
  status : String
  totalCount : Nat
  sentCount : Nat
  failedCount : Nat
  startedAt : Option Nat
  completedAt : Option Nat
  deriving Repr, DecidableEq

/-- The subscriber columns touched by `UpdateSubscriberStatus`
(`subscribers` table of `schema.sql`). -/
structure SubscriberRow where
  status : String
  verifiedAt : Option Nat
  updatedAt : Nat
  deriving Repr, DecidableEq

/-- `schema.sql` line 30:
`status TEXT NOT NULL CHECK(status IN ('draft', 'sending', 'sent', 'failed')) DEFAULT 'draft'`.
Note the list does not include `cancelled`. -/
def campaignStatusAllowed (s : String) : Bool :=
  s = "draft" || s = "sending" || s = "sent" || s = "failed"

/-- `schema.sql` subscribers check:
`CHECK(status IN ('pending', 'verified', 'unsubscribed'))`. -/
def subscriberStatusAllowed (s : String) : Bool :=
  s = "pending" || s = "verified" || s = "unsubscribed"

/-- `queries.go` `UpdateCampaignStatus`: the UPDATE sets
`status`, `started_at = CASE WHEN ? = 'sending' AND started_at IS NULL THEN now ELSE started_at END`,
`completed_at = CASE WHEN ? IN ('sent', 'failed') THEN now ELSE completed_at END`;
the statement fails when the new status violates the schema CHECK constraint. -/
def updateCampaignStatus (row : CampaignRow) (status : String) (now : Nat) :
    Except String CampaignRow :=
  if campaignStatusAllowed status then
    .ok { row with
      status := status
      startedAt := if status = "sending" ∧ row.startedAt = none then some now else row.startedAt
      completedAt := if status = "sent" ∨ status = "failed" then some now else row.completedAt }
  else
    .error "constraint failed: CHECK constraint failed: campaigns"

/-- The state of the campaign row after the `UpdateCampaignStatus` statement
runs: a failed UPDATE leaves the row untouched. -/
def applyCampaignStatusUpdate (row : CampaignRow) (status : String) (now : Nat) : CampaignRow :=
  match updateCampaignStatus row status now with
  | .ok r => r
  | .error _ => row

/-- `queries.go` `UpdateSubscriberStatus`: the UPDATE sets `status`,
`verified_at = CASE WHEN ? = 'verified' THEN now ELSE verified_at END`,
`updated_at = now`; it fails when the new status violates the schema CHECK. -/
def updateSubscriberStatus (row : SubscriberRow) (status : String) (now : Nat) :
    Except String SubscriberRow :=
  if subscriberStatusAllowed status then
    .ok { row with
      status := status
      verifiedAt := if status = "verified" then some now else row.verifiedAt
      updatedAt := now }
  else
    .error "constraint failed: CHECK constraint failed: subscribers"

/-- `queries.go` `UpdateCampaignCounts`: sets the three counter columns. -/
def updateCampaignCounts (row : CampaignRow) (total sent failed : Nat) : CampaignRow :=
  { row with totalCount := total, sentCount := sent, failedCount := failed }

/-! ## Subscriber list pagination (private subscriber handler, `List`) -/

/-- The handler's `page` resolution: start from default `1`; a query value
that parses (`some v`) and is `> 0` replaces the default. An absent or
unparsable parameter is `none`. -/
def resolvePage (p : Option Int) : Int :=
  match p with
  | some v => if 0 < v then v else 1
  | none => 1

/-- The handler's `per_page` resolution: start from default `20`; a query
value that parses (`some v`) and satisfies `0 < v ≤ 100` replaces the
default. An absent or unparsable parameter is `none`. -/
def resolvePerPage (pp : Option Int) : Int :=
  match pp with
  | some v => if 0 < v ∧ v ≤ 100 then v else 20
  | none => 20

/-! ## Template substitution (`worker.ReplaceTemplateVars`) -/

/-- Fuel-indexed core of Go's `strings.ReplaceAll` for a non-empty pattern:
scan left to right; at each position, if `pat` is a prefix, emit `rep` and
skip past the match (no rescanning of the replacement), otherwise emit the
character and advance. `fuel` bounds the number of scan steps; each step
consumes at least one character, so `fuel = length of the text` suffices. -/
def replaceAllFuel (pat rep : List Char) : Nat → List Char → List Char
  | _, [] => []
  | 0, l => l
  | fuel + 1, c :: rest =>
    if pat.isPrefixOf (c :: rest) then
      rep ++ replaceAllFuel pat rep fuel (List.drop pat.length (c :: rest))
    else
      c :: replaceAllFuel pat rep fuel rest

/-- Go's `strings.ReplaceAll text pat rep` on character lists. -/
def replaceAll (pat rep text : List Char) : List Char :=
  replaceAllFuel pat rep text.length text

/-- The literal `{{name}}` (written as characters: the placeholder braces). -/
def namePat : List Char := ['{', '{', 'n', 'a', 'm', 'e', '}', '}']

/-- The literal `{{email}}`. -/
def emailPat : List Char := ['{', '{', 'e', 'm', 'a', 'i', 'l', '}', '}']

/-- `worker.ReplaceTemplateVars`: first replace every `{{name}}` by `name`,
then replace every `{{email}}` in the result by `email`. -/
def ReplaceTemplateVars (text name email : List Char) : List Char :=
  replaceAll emailPat email (replaceAll namePat name text)

/-! ## Rate-limit ticker (`SendCampaign` line `time.NewTicker(time.Second / time.Duration(w.config.RateLimit))`) -/

/-- Outcome of constructing the rate-limit ticker. Go panics on integer
division by zero, and `time.NewTicker` panics on a non-positive period. -/
inductive TickerOutcome
  | divideByZero
  | nonPositiveInterval
  | ok (periodNs : Int)
  deriving Repr, DecidableEq

/-- `time.Second / time.Duration(rateLimit)` followed by `time.NewTicker`:
division by zero panics; a period `≤ 0` makes `NewTicker` panic. One second
is `1000000000` nanoseconds. -/
def makeTicker (rateLimit : Int) : TickerOutcome :=
  if rateLimit = 0 then .divideByZero
  else if 1000000000 / rateLimit ≤ 0 then .nonPositiveInterval
  else .ok (1000000000 / rateLimit)

/-! ## The campaign worker (`worker.SendCampaign`) -/

/-- Where the loop first observes cancellation for a given recipient index:
at the pre-recipient `select` on `ctx.Done()` (`before`), or at the
`ctx.Err() != nil` check after the attempt loop (`during`). -/
inductive CancelPhase
  | before
  | during
  deriving Repr, DecidableEq

/-- A `campaign_logs` row as written by the loop (campaign id and timestamp
omitted: the send handles a single fixed campaign). -/
structure LogRow where
  subscriberId : Nat
  status : String
  deriving Repr, DecidableEq

/-- The journal messages `SendCampaign` formats, one constructor per
`fmt.Sprintf` shape. -/
inductive JMsg
  | started (n : Nat)
  | noSubscribers
  | notDraft
  | cancelledAt (sent failed remaining : Nat)
  | completedOk (sent : Nat)
  | allFailed (failed : Nat)
  | completedWithErrors (sent failed : Nat)
  | failedStatusUpdate
  deriving Repr, DecidableEq

/-- A `campaign_journal` row: event type (`info`/`warning`/`error`/`success`)
and message. -/
structure JRow where
  kind : String
  msg : JMsg
  deriving Repr, DecidableEq

/-- Result of the recipient loop (lines 126–201 of the worker):
final tallies, whether cancellation was observed, and the accumulated
log rows, journal rows and campaign row (with any periodic counter flushes
applied). -/
structure LoopResult where
  sent : Nat
  failed : Nat
  cancelled : Bool
  logs : List LogRow
  journal : List JRow
  campaign : CampaignRow
  deriving Repr, DecidableEq

/-- The recipient loop. `subs` is the remaining snapshot (subscriber ids),
`i` the absolute index of its head in the snapshot, `deliver j` tells
whether the attempt loop for recipient `j` ends with `sendErr == nil`,
and `cancel = some (k, phase)` says cancellation is first observed at
recipient `k` (in phase `phase`); `none` means it never fires. -/
def sendLoop (deliver : Nat → Bool) (cancel : Option (Nat × CancelPhase))
    (total batchSize : Nat) :
    List Nat → Nat → Nat → Nat → CampaignRow → List LogRow → List JRow → LoopResult
  | [], _, s, f, row, logs, js =>
    { sent := s, failed := f, cancelled := false, logs := logs, journal := js, campaign := row }
  | sub :: rest, i, s, f, row, logs, js =>
    if cancel = some (i, CancelPhase.before) ∨ cancel = some (i, CancelPhase.during) then
      { sent := s, failed := f, cancelled := true, logs := logs,
        journal := js ++ [⟨"warning", .cancelledAt s f (total - s - f)⟩], campaign := row }
    else
      let ok := deliver i
      let logs' := logs ++ [⟨sub, if ok then "sent" else "failed"⟩]
      let s' := if ok then s + 1 else s
      let f' := if ok then f else f + 1
      let row' := if (s' + f') % batchSize = 0 then updateCampaignCounts row total s' f' else row
      sendLoop deliver cancel total batchSize rest (i + 1) s' f' row' logs' js

/-- The errors `SendCampaign` returns. -/
inductive SendErr
  | notDraft
  | noRecipients
  | statusUpdateFailed
  deriving Repr, DecidableEq

/-- How the send ends: a Go panic (message attached), an error return, or a
`nil` return. -/
inductive SendOutcome
  | panicked (msg : String)
  | errored (e : SendErr)
  | ok
  deriving Repr, DecidableEq

/-- Everything observable after `SendCampaign` returns: the outcome, the
persisted campaign row, the `campaign_logs` rows written, and the journal. -/
structure SendResult where
  outcome : SendOutcome
  campaign : CampaignRow
  logs : List LogRow
  journal : List JRow
  deriving Repr, DecidableEq

/-- `worker.SendCampaign` for one campaign: status gate, verified-subscriber
snapshot check, transition to `sending`, counter initialisation, ticker
construction, recipient loop, final counter flush, terminal status decision
and terminal journal entry. The registry bookkeeping (`w.sending`) and the
best-effort stdout logging are outside the persisted state and omitted;
best-effort store writes are modelled as succeeding. -/
def sendCampaign (rateLimit : Int) (batchSize : Nat) (campaign : CampaignRow)
    (subs : List Nat) (deliver : Nat → Bool) (cancel : Option (Nat × CancelPhase))
    (now : Nat) : SendResult :=
  if campaign.status ≠ "draft" then
    { outcome := .errored .notDraft, campaign := campaign, logs := [],
      journal := [⟨"error", .notDraft⟩] }
  else if subs = [] then
    { outcome := .errored .noRecipients, campaign := campaign, logs := [],
      journal := [⟨"error", .noSubscribers⟩] }
  else
    let js0 : List JRow := [⟨"info", .started subs.length⟩]
    match updateCampaignStatus campaign "sending" now with
    | .error _ =>
      { outcome := .errored .statusUpdateFailed, campaign := campaign, logs := [],
        journal := js0 ++ [⟨"error", .failedStatusUpdate⟩] }
    | .ok row1 =>
      let row2 := updateCampaignCounts row1 subs.length 0 0
      match makeTicker rateLimit with
      | .divideByZero =>
        { outcome := .panicked "runtime error: integer divide by zero", campaign := row2,
          logs := [], journal := js0 }
      | .nonPositiveInterval =>
        { outcome := .panicked "non-positive interval for NewTicker", campaign := row2,
          logs := [], journal := js0 }
      | .ok _ =>
        let lr := sendLoop deliver cancel subs.length batchSize subs 0 0 0 row2 [] []
        let row3 := updateCampaignCounts lr.campaign subs.length lr.sent lr.failed
        let finalStatus :=
          if lr.cancelled then "cancelled"
          else if 0 < lr.failed ∧ lr.sent = 0 then "failed"
          else "sent"
        match updateCampaignStatus row3 finalStatus now with
        | .error _ =>
          { outcome := .errored .statusUpdateFailed, campaign := row3, logs := lr.logs,
            journal := js0 ++ lr.journal ++ [⟨"error", .failedStatusUpdate⟩] }
        | .ok row4 =>
          let terminalJ : List JRow :=
            if lr.cancelled then []
            else if lr.failed = 0 then [⟨"success", .completedOk lr.sent⟩]
            else if lr.sent = 0 then [⟨"error", .allFailed lr.failed⟩]
            else [⟨"warning", .completedWithErrors lr.sent lr.failed⟩]
          { outcome := .ok, campaign := row4, logs := lr.logs,
            journal := js0 ++ lr.journal ++ terminalJ }

/-! ## Public subscribe handler (`public.Subscribe`) -/

/-- Outcome of `GetSubscriberByEmail` as branched on in the handler:
a row was found, no row exists (`sql.ErrNoRows` or the wrapped
"failed to get subscriber" error), or some other store failure. -/
inductive LookupResult
  | found
  | notFound
  | failure
  deriving Repr, DecidableEq

/-- Outcome of `CreateSubscriber`: success, a `UNIQUE constraint failed`
race, or some other store failure. -/
inductive CreateResult
  | created
  | uniqueViolation
  | failure
  deriving Repr, DecidableEq

/-- Response bodies the subscribe handler can emit, as the structured values
handed to `response.JSON` (equal values marshal to identical bytes). -/
inductive RespBody
  | subscribeMsg (message : String)
  | errorBody (error message : String)
  deriving Repr, DecidableEq

/-- An HTTP response: status code and JSON body. -/
structure HttpResponse where
  status : Nat
  body : RespBody
  deriving Repr, DecidableEq

/-- `public.Subscribe` after JSON decoding: email validation, existing-row
lookup, creation with the unique-constraint race path, and the success
response. (The best-effort verification email does not affect the
response.) `emailValid` is the conjunction of the non-empty, length and
regex checks on the normalised email. -/
def subscribe (emailValid : Bool) (lookup : LookupResult) (create : CreateResult) :
    HttpResponse :=
  if !emailValid then
    { status := 400, body := .errorBody "bad_request" "invalid email format" }
  else
    match lookup with
    | .found =>
      { status := 200,
        body := .subscribeMsg "Please check your email to verify your subscription." }
    | .failure =>
      { status := 500, body := .errorBody "internal_error" "subscription failed" }
    | .notFound =>
      match create with
      | .uniqueViolation =>
        { status := 200,
          body := .subscribeMsg "Please check your email to verify your subscription." }
      | .failure =>
        { status := 500, body := .errorBody "internal_error" "subscription failed" }
      | .created =>
        { status := 200,
          body := .subscribeMsg "Please check your email to verify your subscription." }

/-! ## Configuration validation (`config.Validate`) -/

/-- `config.AuthConfig`. -/
structure AuthConfig where
  username : String
  password : String
  deriving Repr, DecidableEq

/-- `config.SendingConfig` (the fields the worker reads). -/
structure SendingConfig where
  rateLimit : Int
  maxRetries : Int
  batchSize : Int
  deriving Repr, DecidableEq

/-- The configuration fields `Validate` and the worker depend on. -/
structure AppConfig where
  auth : AuthConfig
  sending : SendingConfig
  deriving Repr, DecidableEq

/-- `config.Validate`: rejects an empty `auth.password` or `auth.username`
and checks nothing else. -/
def Validate (c : AppConfig) : Except String Unit :=
  if c.auth.password = "" then
    .error "auth.password is required - admin panel cannot run without authentication"
  else if c.auth.username = "" then
    .error "auth.username is required"
  else
    .ok ()

/-! ## Loop accounting -/

def countDelivered (deliver : Nat → Bool) (i n : Nat) : Nat :=
  match n with
  | 0 => 0
  | m + 1 => (if deliver i then 1 else 0) + countDelivered deliver (i + 1) m

def loopCutoff (cancel : Option (Nat × CancelPhase)) (i n : Nat) : Nat :=
  match cancel with
  | none => n
  | some (k, _) => min (k - i) n

def loopCancelled (cancel : Option (Nat × CancelPhase)) (i n : Nat) : Bool :=
  match cancel with
  | none => false
  | some (k, _) => decide (k - i < n)


/-! ## Theorems -/

/-- At most `n` of `n` recipients can be delivered. -/
theorem countDelivered_le (deliver : Nat → Bool) : ∀ n i, countDelivered deliver i n ≤ n := by
  intro n
  induction n with
  | zero => intro i; simp [countDelivered]
  | succ m ih =>
    intro i
    simp only [countDelivered]
    have := ih (i + 1)
    split <;> omega

/-- The loop never processes more recipients than the snapshot holds. -/
theorem loopCutoff_le (cancel : Option (Nat × CancelPhase)) (i n : Nat) :
    loopCutoff cancel i n ≤ n := by
  cases cancel with
  | none => simp [loopCutoff]
  | some kp => obtain ⟨k, ph⟩ := kp; simp [loopCutoff]

/-- Full characterisation of the recipient loop: final tallies, cancellation
flag, log rows, journal, and the invariance of the campaign row status and
timestamps under counter flushes. -/
theorem sendLoop_spec (deliver : Nat → Bool) (cancel : Option (Nat × CancelPhase))
    (total batch : Nat) :
    ∀ (subs : List Nat) (i s f : Nat) (row : CampaignRow) (logs : List LogRow)
      (js : List JRow),
      (∀ k ph, cancel = some (k, ph) → i ≤ k) →
      (sendLoop deliver cancel total batch subs i s f row logs js).sent
          = s + countDelivered deliver i (loopCutoff cancel i subs.length) ∧
      (sendLoop deliver cancel total batch subs i s f row logs js).failed
          = f + (loopCutoff cancel i subs.length
              - countDelivered deliver i (loopCutoff cancel i subs.length)) ∧
      (sendLoop deliver cancel total batch subs i s f row logs js).cancelled
          = loopCancelled cancel i subs.length ∧
      (sendLoop deliver cancel total batch subs i s f row logs js).logs
          = logs ++ (List.range (loopCutoff cancel i subs.length)).map
              (fun j => ⟨subs.getD j 0, if deliver (i + j) then "sent" else "failed"⟩) ∧
      (sendLoop deliver cancel total batch subs i s f row logs js).journal
          = js ++ (if loopCancelled cancel i subs.length then
              [⟨"warning", JMsg.cancelledAt
                  (sendLoop deliver cancel total batch subs i s f row logs js).sent
                  (sendLoop deliver cancel total batch subs i s f row logs js).failed
                  (total - (sendLoop deliver cancel total batch subs i s f row logs js).sent
                    - (sendLoop deliver cancel total batch subs i s f row logs js).failed)⟩]
            else []) ∧
      (sendLoop deliver cancel total batch subs i s f row logs js).campaign.status = row.status ∧
      (sendLoop deliver cancel total batch subs i s f row logs js).campaign.startedAt
          = row.startedAt ∧
      (sendLoop deliver cancel total batch subs i s f row logs js).campaign.completedAt
          = row.completedAt := by
  intro subs
  induction subs with
  | nil =>
    intro i s f row logs js hik
    cases cancel with
    | none => simp [sendLoop, loopCutoff, loopCancelled, countDelivered]
    | some kp => simp [sendLoop, loopCutoff, loopCancelled, countDelivered]
  | cons sub rest ih =>
    intro i s f row logs js hik
    by_cases hbrk : cancel = some (i, CancelPhase.before) ∨ cancel = some (i, CancelPhase.during)
    · -- break branch: cancellation observed at this recipient
      obtain ⟨k, ph, hc⟩ : ∃ k ph, cancel = some (k, ph) := by
        rcases hbrk with h | h <;> exact ⟨_, _, h⟩
      have hk : k = i := by
        rcases hbrk with h | h <;> (rw [hc] at h; injection h with h'; cases h'; rfl)
      subst hk
      simp only [sendLoop, if_pos hbrk]
      subst hc
      simp [loopCutoff, loopCancelled, countDelivered]
    · -- process branch
      simp only [sendLoop, if_neg hbrk]
      have hik' : ∀ k ph, cancel = some (k, ph) → i + 1 ≤ k := by
        intro k ph hc
        have h1 := hik k ph hc
        rcases Nat.lt_or_ge i k with h | h
        · omega
        · exfalso
          have : i = k := by omega
          subst this
          cases ph
          · exact hbrk (Or.inl hc)
          · exact hbrk (Or.inr hc)
      have hcut : loopCutoff cancel i (sub :: rest).length
          = loopCutoff cancel (i + 1) rest.length + 1 := by
        cases cancel with
        | none => simp [loopCutoff]
        | some kp =>
          obtain ⟨k, ph⟩ := kp
          have hik2 := hik' k ph rfl
          simp only [loopCutoff, List.length_cons]
          omega
      have hcanc : loopCancelled cancel i (sub :: rest).length
          = loopCancelled cancel (i + 1) rest.length := by
        cases cancel with
        | none => simp [loopCancelled]
        | some kp =>
          obtain ⟨k, ph⟩ := kp
          have hik2 := hik' k ph rfl
          simp only [loopCancelled, List.length_cons]
          rw [decide_eq_decide]
          omega
      have hcntle := countDelivered_le deliver (loopCutoff cancel (i + 1) rest.length) (i + 1)
      have hmap : (List.range (loopCutoff cancel (i + 1) rest.length + 1)).map
            (fun j => (⟨(sub :: rest).getD j 0,
              if deliver (i + j) then "sent" else "failed"⟩ : LogRow))
          = (⟨sub, if deliver i then "sent" else "failed"⟩ : LogRow)
            :: (List.range (loopCutoff cancel (i + 1) rest.length)).map
              (fun j => (⟨rest.getD j 0,
                if deliver (i + 1 + j) then "sent" else "failed"⟩ : LogRow)) := by
        rw [List.range_succ_eq_map, List.map_cons, List.map_map]
        simp only [List.getD_cons_zero, Nat.add_zero]
        congr 1
        apply List.map_congr_left
        intro j hj
        simp only [Function.comp_apply, List.getD_cons_succ]
        have harith : i + (j + 1) = i + 1 + j := by omega
        rw [show Nat.succ j = j + 1 from rfl, harith]
      cases hdi : deliver i with
      | true =>
        simp only [reduceIte]
        obtain ⟨h1, h2, h3, h4, h5, h6, h7, h8⟩ :=
          ih (i + 1) (s + 1) f
            (if (s + 1 + f) % batch = 0 then updateCampaignCounts row total (s + 1) f else row)
            (logs ++ [⟨sub, "sent"⟩]) js hik'
        have hcnt : countDelivered deliver i (loopCutoff cancel i (sub :: rest).length)
            = 1 + countDelivered deliver (i + 1) (loopCutoff cancel (i + 1) rest.length) := by
          rw [hcut]
          simp [countDelivered, hdi]
        refine ⟨?_, ?_, ?_, ?_, ?_, ?_, ?_, ?_⟩
        · rw [h1, hcnt]; omega
        · rw [h2, hcnt, hcut]; omega
        · rw [h3, hcanc]
        · rw [h4, hcut, List.append_assoc]
          congr 1
          rw [hmap, hdi]
          simp
        · rw [h5, hcanc]
        · rw [h6]; split <;> simp [updateCampaignCounts]
        · rw [h7]; split <;> simp [updateCampaignCounts]
        · rw [h8]; split <;> simp [updateCampaignCounts]
      | false =>
        simp only [Bool.false_eq_true, reduceIte]
        obtain ⟨h1, h2, h3, h4, h5, h6, h7, h8⟩ :=
          ih (i + 1) s (f + 1)
            (if (s + (f + 1)) % batch = 0 then updateCampaignCounts row total s (f + 1) else row)
            (logs ++ [⟨sub, "failed"⟩]) js hik'
        have hcnt : countDelivered deliver i (loopCutoff cancel i (sub :: rest).length)
            = countDelivered deliver (i + 1) (loopCutoff cancel (i + 1) rest.length) := by
          rw [hcut]
          simp [countDelivered, hdi]
        refine ⟨?_, ?_, ?_, ?_, ?_, ?_, ?_, ?_⟩
        · rw [h1, hcnt]
        · rw [h2, hcnt, hcut]; omega
        · rw [h3, hcanc]
        · rw [h4, hcut, List.append_assoc]
          congr 1
          rw [hmap, hdi]
          simp
        · rw [h5, hcanc]
        · rw [h6]; split <;> simp [updateCampaignCounts]
        · rw [h7]; split <;> simp [updateCampaignCounts]
        · rw [h8]; split <;> simp [updateCampaignCounts]

/-- Entering `sent` succeeds and stamps `completed_at`. -/
theorem updateCampaignStatus_sent (row : CampaignRow) (now : Nat) :
    updateCampaignStatus row "sent" now
      = .ok { row with status := "sent", completedAt := some now } := by
  simp [updateCampaignStatus, campaignStatusAllowed]

/-- Entering `failed` succeeds and stamps `completed_at`. -/
theorem updateCampaignStatus_failed (row : CampaignRow) (now : Nat) :
    updateCampaignStatus row "failed" now
      = .ok { row with status := "failed", completedAt := some now } := by
  simp [updateCampaignStatus, campaignStatusAllowed]

/-- Entering `cancelled` violates the schema CHECK constraint. -/
theorem updateCampaignStatus_cancelled (row : CampaignRow) (now : Nat) :
    updateCampaignStatus row "cancelled" now
      = .error "constraint failed: CHECK constraint failed: campaigns" := by
  simp [updateCampaignStatus, campaignStatusAllowed]

/-- Replacing a non-empty pattern inside the pattern itself yields the
replacement. -/
theorem replaceAll_self (pat rep : List Char) (h : pat ≠ []) :
    replaceAll pat rep pat = rep := by
  cases pat with
  | nil => exact absurd rfl h
  | cons c cs =>
    show replaceAllFuel (c :: cs) rep (c :: cs).length (c :: cs) = rep
    rw [List.length_cons]
    rw [show replaceAllFuel (c :: cs) rep (cs.length + 1) (c :: cs)
        = if (c :: cs).isPrefixOf (c :: cs) then
            rep ++ replaceAllFuel (c :: cs) rep cs.length (List.drop (c :: cs).length (c :: cs))
          else c :: replaceAllFuel (c :: cs) rep cs.length cs from rfl]
    rw [if_pos (List.isPrefixOf_iff_prefix.mpr (List.prefix_refl _))]
    rw [List.drop_length]
    cases hn : cs.length with
    | zero => simp [replaceAllFuel]
    | succ m => simp [replaceAllFuel]

/-- The name placeholder does not occur in the email placeholder, so the
first pass leaves it unchanged. -/
theorem replaceAll_namePat_emailPat (name : List Char) :
    replaceAll namePat name emailPat = emailPat := rfl

/-- C1: the claim says that when cancellation is observed during a send, the
campaign's persisted status transitions to the terminal value `cancelled`.
On the code this fails: the worker writes `cancelled`, but the `campaigns`
CHECK constraint of `schema.sql` (line 30) does not list `cancelled`, so the
UPDATE fails, `SendCampaign` returns the final-status-update error, and the
persisted status stays `sending`. The theorem evaluates the engine on any
run in which cancellation is observed at some recipient `k` inside the
snapshot: the stored status is `sending`, not `cancelled`, the send returns
an error, and the journal still carries the cancellation `warning` whose
tallies satisfy `X + Y + Z = total`. -/
theorem claim_C1 (rl period : Int) (batch : Nat) (campaign : CampaignRow)
    (subs : List Nat) (deliver : Nat → Bool) (k : Nat) (ph : CancelPhase) (now : Nat)
    (hdraft : campaign.status = "draft") (htick : makeTicker rl = .ok period)
    (hk : k < subs.length) :
    (sendCampaign rl batch campaign subs deliver (some (k, ph)) now).campaign.status
        = "sending" ∧
    (sendCampaign rl batch campaign subs deliver (some (k, ph)) now).campaign.status
        ≠ "cancelled" ∧
    (sendCampaign rl batch campaign subs deliver (some (k, ph)) now).outcome
        = .errored .statusUpdateFailed ∧
    (⟨"warning", JMsg.cancelledAt (countDelivered deliver 0 k)
        (k - countDelivered deliver 0 k) (subs.length - k)⟩ : JRow)
      ∈ (sendCampaign rl batch campaign subs deliver (some (k, ph)) now).journal := by
  have hsubs : subs ≠ [] := by
    intro h
    rw [h] at hk
    simp at hk
  have hupd : updateCampaignStatus campaign "sending" now
      = .ok { campaign with
          status := "sending"
          startedAt := (if campaign.startedAt = none then some now else campaign.startedAt)
          completedAt := campaign.completedAt } := by
    simp [updateCampaignStatus, campaignStatusAllowed]
  obtain ⟨h1, h2, h3, h4, h5, h6, h7, h8⟩ :=
    sendLoop_spec deliver (some (k, ph)) subs.length batch subs 0 0 0
      (updateCampaignCounts { campaign with
          status := "sending"
          startedAt := (if campaign.startedAt = none then some now else campaign.startedAt)
          completedAt := campaign.completedAt } subs.length 0 0) [] []
      (by intro k' ph' hc; omega)
  have hcut : loopCutoff (some (k, ph)) 0 subs.length = k := by
    simp only [loopCutoff]
    omega
  have hb : loopCancelled (some (k, ph)) 0 subs.length = true := by
    simp only [loopCancelled]
    simpa using hk
  have hcnt := countDelivered_le deliver k 0
  simp only [hcut, hb, Nat.zero_add, Nat.sub_zero] at h1 h2 h3 h4 h5
  have hrem : subs.length - countDelivered deliver 0 k - (k - countDelivered deliver 0 k)
      = subs.length - k := by omega
  simp only [sendCampaign, hdraft, ne_eq, not_true, reduceIte, if_false, if_neg hsubs, hupd,
    htick, h1, h2, h3, h5, List.nil_append, hrem, updateCampaignStatus_cancelled]
  simp only [updateCampaignCounts] at h6 ⊢
  rw [h6]
  refine ⟨by trivial, by simp, by trivial, ?_⟩
  simp

/-- Witness for `claim_C1` at a concrete run: two recipients, cancellation
observed before recipient 1. -/
theorem claim_C1_witness :
    (⟨"draft", 0, 0, 0, none, none⟩ : CampaignRow).status = "draft" ∧
    makeTicker 1 = .ok 1000000000 ∧
    1 < ([10, 11] : List Nat).length ∧
    (sendCampaign 1 100 ⟨"draft", 0, 0, 0, none, none⟩ [10, 11] (fun _ => true)
        (some (1, CancelPhase.before)) 5).campaign.status = "sending" := by
  refine ⟨rfl, by decide, by decide, ?_⟩
  exact (claim_C1 1 1000000000 100 ⟨"draft", 0, 0, 0, none, none⟩ [10, 11] (fun _ => true)
      1 CancelPhase.before 5 rfl (by decide) (by decide)).1

/-- C2 counterexample: updating a `sending` campaign to `cancelled` does not
set `completed_at` (the claim requires it): the UPDATE fails on the CHECK
constraint and the row is left untouched, `completed_at` still unset. -/
theorem claim_C2_counterexample :
    updateCampaignStatus ⟨"sending", 10, 3, 0, some 1, none⟩ "cancelled" 7
      = .error "constraint failed: CHECK constraint failed: campaigns" ∧
    (applyCampaignStatusUpdate ⟨"sending", 10, 3, 0, some 1, none⟩ "cancelled" 7).completedAt
      = none ∧
    (applyCampaignStatusUpdate ⟨"sending", 10, 3, 0, some 1, none⟩ "cancelled" 7).status
      ≠ "cancelled" := by
  refine ⟨rfl, rfl, by decide⟩

/-- C2: status-update timestamps, as amended. Entering `sent` or `failed`
sets `completed_at`; entering `sending` sets `started_at` iff it was unset
(first entry); but entering `cancelled` does not set `completed_at` — the
statement is rejected by the schema CHECK constraint, so no transition into
`cancelled` ever happens (the original claim, which also required
`completed_at` on entry to `cancelled`, is refuted by
`claim_C2_counterexample`). -/
theorem claim_C2 (row : CampaignRow) (now : Nat) :
    updateCampaignStatus row "sent" now
      = .ok { row with status := "sent", completedAt := some now } ∧
    updateCampaignStatus row "failed" now
      = .ok { row with status := "failed", completedAt := some now } ∧
    updateCampaignStatus row "sending" now
      = .ok { row with
          status := "sending"
          startedAt := (if row.startedAt = none then some now else row.startedAt) } ∧
    updateCampaignStatus row "cancelled" now
      = .error "constraint failed: CHECK constraint failed: campaigns" := by
  exact ⟨updateCampaignStatus_sent row now, updateCampaignStatus_failed row now,
    by simp [updateCampaignStatus, campaignStatusAllowed],
    updateCampaignStatus_cancelled row now⟩


/-- Witness for `claim_C2` at a concrete campaign row entering `sent`. -/
theorem claim_C2_witness :
    updateCampaignStatus ⟨"sending", 10, 3, 0, some 1, none⟩ "sent" 7
      = .ok ⟨"sent", 10, 3, 0, some 1, some 7⟩ := by
  have h := (claim_C2 ⟨"sending", 10, 3, 0, some 1, none⟩ 7).1
  simpa using h

/-- C3: per-recipient log/counter discipline of the send loop. For every
recipient position before the cancellation cutoff, the expected log row
(`sent`, or `failed` after the retry loop exhausts) is written; every
position at or past the cutoff — including the recipient whose delivery
attempt was in flight when cancellation fired (`CancelPhase.during`) —
produces no log row; and the persisted counters count exactly the processed
prefix. -/
theorem claim_C3 (rl period : Int) (batch : Nat) (campaign : CampaignRow)
    (subs : List Nat) (deliver : Nat → Bool) (cancel : Option (Nat × CancelPhase))
    (now : Nat)
    (hdraft : campaign.status = "draft") (hsubs : subs ≠ [])
    (htick : makeTicker rl = .ok period) (hnd : subs.Nodup) :
    (∀ j, j < loopCutoff cancel 0 subs.length →
      (⟨subs.getD j 0, if deliver j then "sent" else "failed"⟩ : LogRow)
        ∈ (sendCampaign rl batch campaign subs deliver cancel now).logs) ∧
    (∀ j, loopCutoff cancel 0 subs.length ≤ j → j < subs.length →
      ∀ row ∈ (sendCampaign rl batch campaign subs deliver cancel now).logs,
        row.subscriberId ≠ subs.getD j 0) ∧
    (sendCampaign rl batch campaign subs deliver cancel now).campaign.sentCount
        = countDelivered deliver 0 (loopCutoff cancel 0 subs.length) ∧
    (sendCampaign rl batch campaign subs deliver cancel now).campaign.failedCount
        = loopCutoff cancel 0 subs.length
          - countDelivered deliver 0 (loopCutoff cancel 0 subs.length) := by
  have hupd : updateCampaignStatus campaign "sending" now
      = .ok { campaign with
          status := "sending"
          startedAt := (if campaign.startedAt = none then some now else campaign.startedAt)
          completedAt := campaign.completedAt } := by
    simp [updateCampaignStatus, campaignStatusAllowed]
  obtain ⟨h1, h2, h3, h4, h5, h6, h7, h8⟩ :=
    sendLoop_spec deliver cancel subs.length batch subs 0 0 0
      (updateCampaignCounts { campaign with
          status := "sending"
          startedAt := (if campaign.startedAt = none then some now else campaign.startedAt)
          completedAt := campaign.completedAt } subs.length 0 0) [] []
      (by intro k' ph' hc; omega)
  simp only [Nat.zero_add, List.nil_append] at h1 h2 h4 h5
  have key : (sendCampaign rl batch campaign subs deliver cancel now).logs
        = (List.range (loopCutoff cancel 0 subs.length)).map
            (fun j => (⟨subs.getD j 0, if deliver j then "sent" else "failed"⟩ : LogRow)) ∧
      (sendCampaign rl batch campaign subs deliver cancel now).campaign.sentCount
        = countDelivered deliver 0 (loopCutoff cancel 0 subs.length) ∧
      (sendCampaign rl batch campaign subs deliver cancel now).campaign.failedCount
        = loopCutoff cancel 0 subs.length
          - countDelivered deliver 0 (loopCutoff cancel 0 subs.length) := by
    simp only [sendCampaign, hdraft, ne_eq, not_true, reduceIte, if_false, if_neg hsubs, hupd,
      htick, h1, h2, h3, h4]
    cases hb : loopCancelled cancel 0 subs.length with
    | true =>
      simp only [reduceIte, updateCampaignStatus_cancelled, updateCampaignCounts]
      exact ⟨by trivial, by trivial, by trivial⟩
    | false =>
      simp only [Bool.false_eq_true, if_false]
      by_cases hm : 0 < loopCutoff cancel 0 subs.length
          - countDelivered deliver 0 (loopCutoff cancel 0 subs.length)
          ∧ countDelivered deliver 0 (loopCutoff cancel 0 subs.length) = 0
      · simp only [if_pos hm, updateCampaignStatus_failed, updateCampaignCounts]
        exact ⟨by trivial, by trivial, by trivial⟩
      · simp only [if_neg hm, updateCampaignStatus_sent, updateCampaignCounts]
        exact ⟨by trivial, by trivial, by trivial⟩
  obtain ⟨hlogs, hsent, hfail⟩ := key
  refine ⟨?_, ?_, hsent, hfail⟩
  · intro j hj
    rw [hlogs]
    exact List.mem_map_of_mem _ (List.mem_range.mpr hj)
  · intro j hj1 hj2 row hrow
    rw [hlogs] at hrow
    obtain ⟨j', hj', rfl⟩ := List.mem_map.mp hrow
    have hj'lt : j' < loopCutoff cancel 0 subs.length := List.mem_range.mp hj'
    have hle := loopCutoff_le cancel 0 subs.length
    intro heq
    have hjb1 : j' < subs.length := by omega
    have hjb2 : j < subs.length := by omega
    rw [List.getD_eq_getElem subs 0 hjb1, List.getD_eq_getElem subs 0 hjb2] at heq
    have := (hnd.getElem_inj_iff).mp heq
    omega

/-- Witness for `claim_C3` at a concrete run with an in-flight cancellation
at recipient 1. -/
theorem claim_C3_witness :
    (⟨"draft", 0, 0, 0, none, none⟩ : CampaignRow).status = "draft" ∧
    ([10, 11] : List Nat) ≠ [] ∧ ([10, 11] : List Nat).Nodup ∧
    makeTicker 1 = .ok 1000000000 ∧
    (sendCampaign 1 100 ⟨"draft", 0, 0, 0, none, none⟩ [10, 11] (fun _ => true)
        (some (1, CancelPhase.during)) 5).campaign.sentCount
      = countDelivered (fun _ => true) 0
          (loopCutoff (some (1, CancelPhase.during)) 0 ([10, 11] : List Nat).length) := by
  refine ⟨rfl, by decide, by decide, by decide, ?_⟩
  exact (claim_C3 1 1000000000 100 ⟨"draft", 0, 0, 0, none, none⟩ [10, 11] (fun _ => true)
      (some (1, CancelPhase.during)) 5 rfl (by decide) (by decide) (by decide)).2.2.1

/-- C4 counterexample: updating an already-verified subscriber (with
`verified_at = 5`) to `verified` again at time 9 overwrites `verified_at`
to 9 instead of leaving it unchanged as the claim requires. -/
theorem claim_C4_counterexample :
    updateSubscriberStatus ⟨"verified", some 5, 2⟩ "verified" 9
      = .ok ⟨"verified", some 9, 9⟩ ∧
    (updateSubscriberStatus ⟨"verified", some 5, 2⟩ "verified" 9
      ≠ .ok ⟨"verified", some 5, 9⟩) := by
  refine ⟨rfl, ?_⟩
  intro h
  rw [show updateSubscriberStatus ⟨"verified", some 5, 2⟩ "verified" 9
      = .ok ⟨"verified", some 9, 9⟩ from rfl] at h
  simp at h

/-- C4: subscriber status update, as amended. `update_status` sets
`updated_at` and sets `verified_at` to now iff the new status is `verified`
— regardless of whether `verified_at` was previously set: the SQL CASE has
no `AND verified_at IS NULL` guard, so re-verifying overwrites `verified_at`
(the original claim's "and previously unset" condition is refuted by
`claim_C4_counterexample`). -/
theorem claim_C4 (row : SubscriberRow) (s : String) (now : Nat)
    (hs : subscriberStatusAllowed s = true) :
    updateSubscriberStatus row s now
      = .ok { row with
          status := s
          updatedAt := now
          verifiedAt := (if s = "verified" then some now else row.verifiedAt) } ∧
    (s = "verified" → ∀ r, updateSubscriberStatus row s now = .ok r →
      r.verifiedAt = some now) ∧
    (s ≠ "verified" → ∀ r, updateSubscriberStatus row s now = .ok r →
      r.verifiedAt = row.verifiedAt ∧ r.updatedAt = now) := by
  have h0 : updateSubscriberStatus row s now
      = .ok { row with
          status := s
          updatedAt := now
          verifiedAt := (if s = "verified" then some now else row.verifiedAt) } := by
    simp [updateSubscriberStatus, hs]
  refine ⟨h0, ?_, ?_⟩
  · intro hv r hr
    rw [h0] at hr
    simp only [Except.ok.injEq] at hr
    subst hr
    simp [hv]
  · intro hv r hr
    rw [h0] at hr
    simp only [Except.ok.injEq] at hr
    subst hr
    simp [hv]

/-- Witness for `claim_C4` at a concrete already-verified row. -/
theorem claim_C4_witness :
    subscriberStatusAllowed "verified" = true ∧
    updateSubscriberStatus ⟨"verified", some 5, 2⟩ "verified" 9
      = .ok ⟨"verified", some 9, 9⟩ := by
  refine ⟨by decide, ?_⟩
  have h := (claim_C4 ⟨"verified", some 5, 2⟩ "verified" 9 (by decide)).1
  simpa using h

/-- C5 counterexample: a request with `per_page=500` is served with the
default `20`, not with the claimed clamp value `100`; `per_page=0` likewise
yields `20`, not `1`. -/
theorem claim_C5_counterexample :
    resolvePerPage (some 500) = 20 ∧ resolvePerPage (some 500) ≠ 100 ∧
    resolvePerPage (some 0) = 20 ∧ resolvePerPage (some 0) ≠ 1 := by
  refine ⟨by decide, by decide, by decide, by decide⟩

/-- C5: subscriber-list pagination, as amended. The effective `per_page`
always lies in `[1, 100]`, but an out-of-range or invalid value falls back
to the default `20` — it is not clamped to the nearer bound (the original
clamping claim is refuted by `claim_C5_counterexample`); `page` defaults to
`1` on absent, invalid or non-positive input. -/
theorem claim_C5 (pp p : Option Int) :
    1 ≤ resolvePerPage pp ∧ resolvePerPage pp ≤ 100 ∧ resolvePerPage none = 20 ∧
    (∀ v, pp = some v → 0 < v → v ≤ 100 → resolvePerPage pp = v) ∧
    (∀ v, pp = some v → ¬(0 < v ∧ v ≤ 100) → resolvePerPage pp = 20) ∧
    1 ≤ resolvePage p ∧ resolvePage none = 1 ∧
    (∀ v, p = some v → 0 < v → resolvePage p = v) ∧
    (∀ v, p = some v → v ≤ 0 → resolvePage p = 1) := by
  refine ⟨?_, ?_, by decide, ?_, ?_, ?_, by decide, ?_, ?_⟩
  · cases pp with
    | none => decide
    | some v => simp only [resolvePerPage]; split <;> omega
  · cases pp with
    | none => decide
    | some v => simp only [resolvePerPage]; split <;> omega
  · intro v hv h1 h2
    subst hv
    simp only [resolvePerPage]
    rw [if_pos ⟨h1, h2⟩]
  · intro v hv h
    subst hv
    simp only [resolvePerPage]
    rw [if_neg h]
  · cases p with
    | none => decide
    | some v => simp only [resolvePage]; split <;> omega
  · intro v hv h
    subst hv
    simp only [resolvePage]
    rw [if_pos h]
  · intro v hv h
    subst hv
    simp only [resolvePage]
    rw [if_neg (by omega)]


/-- Witness for `claim_C5` at the out-of-range request `per_page=500` and an
absent `page`. -/
theorem claim_C5_witness :
    resolvePerPage (some 500) = 20 ∧ resolvePage none = 1 := by
  have h := claim_C5 (some 500) none
  exact ⟨h.2.2.2.2.1 500 rfl (by decide), h.2.2.2.2.2.2.1⟩

/-- C6: terminal status of an uncancelled send. The status is `failed` iff
`failed_count > 0` and `sent_count = 0`, and `sent` otherwise (one success
among any number of failures yields `sent`); in the mixed case the terminal
journal entry has kind `warning` (completed with errors). -/
theorem claim_C6 (rl period : Int) (batch : Nat) (campaign : CampaignRow)
    (subs : List Nat) (deliver : Nat → Bool) (now : Nat)
    (hdraft : campaign.status = "draft") (hsubs : subs ≠ [])
    (htick : makeTicker rl = .ok period) :
    (sendCampaign rl batch campaign subs deliver none now).outcome = .ok ∧
    (sendCampaign rl batch campaign subs deliver none now).campaign.sentCount
        = countDelivered deliver 0 subs.length ∧
    (sendCampaign rl batch campaign subs deliver none now).campaign.failedCount
        = subs.length - countDelivered deliver 0 subs.length ∧
    ((sendCampaign rl batch campaign subs deliver none now).campaign.status = "failed"
        ↔ (0 < subs.length - countDelivered deliver 0 subs.length
            ∧ countDelivered deliver 0 subs.length = 0)) ∧
    (¬(0 < subs.length - countDelivered deliver 0 subs.length
        ∧ countDelivered deliver 0 subs.length = 0) →
      (sendCampaign rl batch campaign subs deliver none now).campaign.status = "sent") ∧
    (0 < countDelivered deliver 0 subs.length →
      0 < subs.length - countDelivered deliver 0 subs.length →
      (sendCampaign rl batch campaign subs deliver none now).journal.getLast?
        = some ⟨"warning", JMsg.completedWithErrors (countDelivered deliver 0 subs.length)
            (subs.length - countDelivered deliver 0 subs.length)⟩) := by
  have hupd : updateCampaignStatus campaign "sending" now
      = .ok { campaign with
          status := "sending"
          startedAt := (if campaign.startedAt = none then some now else campaign.startedAt)
          completedAt := campaign.completedAt } := by
    simp [updateCampaignStatus, campaignStatusAllowed]
  obtain ⟨h1, h2, h3, h4, h5, h6, h7, h8⟩ :=
    sendLoop_spec deliver none subs.length batch subs 0 0 0
      (updateCampaignCounts { campaign with
          status := "sending"
          startedAt := (if campaign.startedAt = none then some now else campaign.startedAt)
          completedAt := campaign.completedAt } subs.length 0 0) [] []
      (by intro k ph hc; cases hc)
  simp only [loopCutoff, loopCancelled, Nat.zero_add] at h1 h2 h3 h4 h5
  simp only [sendCampaign, hdraft, ne_eq, not_true, reduceIte, if_false, if_neg hsubs, hupd,
    htick, h1, h2, h3, h5, Bool.false_eq_true, if_false, List.nil_append]
  by_cases hm : 0 < subs.length - countDelivered deliver 0 subs.length
      ∧ countDelivered deliver 0 subs.length = 0
  · simp only [if_pos hm, updateCampaignStatus_failed, updateCampaignCounts]
    refine ⟨trivial, trivial, trivial, ⟨fun _ => hm, fun _ => trivial⟩, ?_, ?_⟩
    · intro h
      exact absurd hm h
    · intro hS _
      exact absurd hS (by omega)
  · simp only [if_neg hm, updateCampaignStatus_sent, updateCampaignCounts]
    refine ⟨trivial, trivial, trivial, ⟨fun h => absurd h (by decide), fun h => absurd h hm⟩,
      fun _ => trivial, ?_⟩
    intro hS hF
    have hne1 : ¬(subs.length - countDelivered deliver 0 subs.length = 0) := by omega
    have hne2 : ¬(countDelivered deliver 0 subs.length = 0) := by omega
    simp only [if_neg hne1, if_neg hne2]
    rfl

/-- Witness for `claim_C6` at a concrete mixed-outcome run. -/
theorem claim_C6_witness :
    (⟨"draft", 0, 0, 0, none, none⟩ : CampaignRow).status = "draft" ∧
    ([10, 11, 12] : List Nat) ≠ [] ∧
    makeTicker 1 = .ok 1000000000 ∧
    (sendCampaign 1 100 ⟨"draft", 0, 0, 0, none, none⟩ [10, 11, 12]
        (fun i => decide (i ≠ 1)) none 5).outcome = .ok := by
  refine ⟨rfl, by decide, by decide, ?_⟩
  exact (claim_C6 1 1000000000 100 ⟨"draft", 0, 0, 0, none, none⟩ [10, 11, 12]
      (fun i => decide (i ≠ 1)) 5 rfl (by decide) (by decide)).1

/-- C7: empty verified snapshot. The send returns the `no_recipients` error,
emits exactly one journal entry, of kind `error` (no verified subscribers),
writes no log rows, and leaves the campaign row — status `draft`, counters
and timestamps — completely unchanged. -/
theorem claim_C7 (rl : Int) (batch : Nat) (campaign : CampaignRow)
    (deliver : Nat → Bool) (cancel : Option (Nat × CancelPhase)) (now : Nat)
    (hdraft : campaign.status = "draft") :
    sendCampaign rl batch campaign [] deliver cancel now =
      { outcome := .errored .noRecipients, campaign := campaign, logs := [],
        journal := [⟨"error", JMsg.noSubscribers⟩] } := by
  simp [sendCampaign, hdraft]

/-- Witness for `claim_C7` at a concrete draft campaign. -/
theorem claim_C7_witness :
    (⟨"draft", 7, 1, 2, none, none⟩ : CampaignRow).status = "draft" ∧
    sendCampaign 1 100 ⟨"draft", 7, 1, 2, none, none⟩ [] (fun _ => true) none 5
      = { outcome := .errored .noRecipients, campaign := ⟨"draft", 7, 1, 2, none, none⟩,
          logs := [], journal := [⟨"error", JMsg.noSubscribers⟩] } := by
  exact ⟨rfl, claim_C7 1 100 ⟨"draft", 7, 1, 2, none, none⟩ (fun _ => true) none 5 rfl⟩

/-- C8 counterexample: with subject text `Hi ` followed by the name
placeholder, a subscriber name equal to the literal email placeholder and
email `a@x.io`, the composed text is `Hi a@x.io`: the placeholder introduced
by the substituted name value was itself substituted by the second pass,
contradicting the claim. -/
theorem claim_C8_counterexample :
    ReplaceTemplateVars (['H', 'i', ' '] ++ namePat) emailPat ['a', '@', 'x', '.', 'i', 'o']
      = ['H', 'i', ' '] ++ ['a', '@', 'x', '.', 'i', 'o'] ∧
    ReplaceTemplateVars (['H', 'i', ' '] ++ namePat) emailPat ['a', '@', 'x', '.', 'i', 'o']
      ≠ ['H', 'i', ' '] ++ emailPat := by
  refine ⟨by decide, by decide⟩

/-- C8: template substitution, as amended. Substitution is two sequential
non-recursive `ReplaceAll` passes, the name placeholder first and then the
email placeholder: a text equal to the name placeholder becomes the name
value with the email pass still applied to it (so an email placeholder
introduced by the name value IS substituted — the original claim that such
text is never substituted is refuted by `claim_C8_counterexample`), while a
text equal to the email placeholder becomes the email value verbatim,
nothing introduced by it substituted. -/
theorem claim_C8 (name email : List Char) :
    ReplaceTemplateVars namePat name email = replaceAll emailPat email name ∧
    ReplaceTemplateVars emailPat name email = email := by
  constructor
  · unfold ReplaceTemplateVars
    rw [replaceAll_self namePat name (by decide)]
  · unfold ReplaceTemplateVars
    rw [replaceAll_namePat_emailPat, replaceAll_self emailPat email (by decide)]


/-- Witness for `claim_C8` with the email placeholder as the name value. -/
theorem claim_C8_witness :
    ReplaceTemplateVars namePat emailPat ['a'] = replaceAll emailPat ['a'] emailPat ∧
    ReplaceTemplateVars emailPat emailPat ['a'] = ['a'] :=
  claim_C8 emailPat ['a']

/-- C9: two-run noninterference of public subscribe. For a well-formed email,
the responses of the existing-subscriber path, the unique-constraint race
path and the fresh-creation path are identical — same 200 status and the
same opaque success body — so the response does not disclose whether the
address exists. -/
theorem claim_C9 (emailValid : Bool) (create : CreateResult) (h : emailValid = true) :
    subscribe emailValid .found create = subscribe emailValid .notFound .uniqueViolation ∧
    subscribe emailValid .notFound .uniqueViolation
      = subscribe emailValid .notFound .created ∧
    (subscribe emailValid .found create).status = 200 ∧
    (subscribe emailValid .found create).body
      = .subscribeMsg "Please check your email to verify your subscription." := by
  subst h
  exact ⟨rfl, rfl, rfl, rfl⟩

/-- Witness for `claim_C9` at the fresh-creation path. -/
theorem claim_C9_witness :
    (true : Bool) = true ∧
    subscribe true .found .created = subscribe true .notFound .uniqueViolation := by
  exact ⟨rfl, (claim_C9 true .created rfl).1⟩

/-- C10: implicit precondition `rate_limit ≥ 1`. `config.Validate` checks
only the auth credentials and accepts a configuration with `rate_limit = 0`;
running `SendCampaign` under such a configuration reaches the unguarded
division of one second by `rate_limit` and panics with an integer
divide-by-zero instead of returning an error. -/
theorem claim_C10 (cfg : AppConfig) (batch : Nat) (campaign : CampaignRow)
    (subs : List Nat) (deliver : Nat → Bool) (cancel : Option (Nat × CancelPhase))
    (now : Nat)
    (hu : cfg.auth.username ≠ "") (hp : cfg.auth.password ≠ "")
    (hr : cfg.sending.rateLimit = 0)
    (hdraft : campaign.status = "draft") (hsubs : subs ≠ []) :
    Validate cfg = .ok () ∧
    makeTicker cfg.sending.rateLimit = .divideByZero ∧
    (sendCampaign cfg.sending.rateLimit batch campaign subs deliver cancel now).outcome
        = .panicked "runtime error: integer divide by zero" ∧
    ∀ e, (sendCampaign cfg.sending.rateLimit batch campaign subs deliver cancel now).outcome
        ≠ .errored e := by
  have hv : Validate cfg = .ok () := by
    simp [Validate, hu, hp]
  have ht : makeTicker cfg.sending.rateLimit = .divideByZero := by
    rw [hr]; rfl
  have hupd : updateCampaignStatus campaign "sending" now
      = .ok { campaign with
          status := "sending"
          startedAt := (if campaign.startedAt = none then some now else campaign.startedAt)
          completedAt := campaign.completedAt } := by
    simp [updateCampaignStatus, campaignStatusAllowed]
  have hout : (sendCampaign cfg.sending.rateLimit batch campaign subs deliver cancel now).outcome
      = .panicked "runtime error: integer divide by zero" := by
    simp only [sendCampaign, hdraft, ne_eq, not_true, reduceIte, if_false, if_neg hsubs, hupd, ht]
  refine ⟨hv, ht, hout, ?_⟩
  intro e
  rw [hout]
  intro h
  cases h

/-- Witness for `claim_C10` at a concrete configuration with zero rate
limit and valid auth. -/
theorem claim_C10_witness :
    Validate ⟨⟨"admin", "secret"⟩, ⟨0, 3, 100⟩⟩ = .ok () ∧
    makeTicker (0 : Int) = .divideByZero ∧
    (sendCampaign 0 100 ⟨"draft", 0, 0, 0, none, none⟩ [10] (fun _ => true) none 5).outcome
      = .panicked "runtime error: integer divide by zero" := by
  have h := claim_C10 ⟨⟨"admin", "secret"⟩, ⟨0, 3, 100⟩⟩ 100 ⟨"draft", 0, 0, 0, none, none⟩
    [10] (fun _ => true) none 5 (by decide) (by decide) rfl rfl (by decide)
  exact ⟨h.1, h.2.1, h.2.2.1⟩


end Tinylist
